import Mathlib

/-!
Shallow embedding of `src/api_clients/repo_client.py` (class `RepoClient`):
repository-name validation, client construction with its authentication
probe, and the four operations `create_repo`, `get_repo`, `update_repo`,
`delete_repo`, together with their error mapping.

Python strings are modelled as `List Char`; the remote service is an
explicit `HttpResult` argument (the outcome of the single HTTP request an
operation issues); Python exceptions are the constructors of `PyError`.
The `requests` library is modelled with its current semantics, where a
JSON-decoding failure raised by `Response.json()` is a `RequestException`
carrying no response object.
-/

namespace RepoClientSpec

/-- One character of the regex class `[a-zA-Z0-9_.-]` from
`REPO_NAME_PATTERN` (ASCII letters, digits, underscore, dot, hyphen). -/
def allowedChar (c : Char) : Bool :=
  ('a' ≤ c && c ≤ 'z') || ('A' ≤ c && c ≤ 'Z') || ('0' ≤ c && c ≤ '9') ||
    c == '_' || c == '.' || c == '-'

/-- `[a-zA-Z0-9_.-]+` matching the whole of `s`: nonempty and all allowed. -/
def coreMatch (s : List Char) : Bool :=
  !s.isEmpty && s.all allowedChar

/-- `re.match(r'^[a-zA-Z0-9_.-]+$', s) is not None`, with CPython
semantics: without `re.MULTILINE`, `$` matches at the end of the string
and also just before a newline at the end of the string.  So the pattern
matches `s` exactly when `s` is one or more allowed characters, or one or
more allowed characters followed by a single final newline. -/
def reMatchRepoName (s : List Char) : Bool :=
  coreMatch s || (s.getLast? == some '\n' && coreMatch s.dropLast)

/-- Python exceptions that can propagate out of the client, by kind.
`validationError` and `gitHubAPIError` are the two classes the module
defines; `keyError` models a bare `KeyError` from a dict subscript on an
object lacking the key; `typeError` models the `TypeError` a `['login']`
subscript raises on a decoded non-dict JSON value; `attributeError`
models the `AttributeError` that `.get` raises on a decoded non-dict
JSON value; `jsonDecodeError` models the exception `Response.json()`
raises on a body that is not valid JSON when it escapes uncaught. -/
inductive PyError where
  | validationError (msg : String)
  | gitHubAPIError (msg : String) (statusCode : Option Nat)
  | keyError (key : String)
  | typeError
  | attributeError
  | jsonDecodeError
deriving Repr, DecidableEq

def MAX_REPO_NAME_LENGTH : Nat := 100

def emptyNameMsg : String := "Repository name cannot be empty."

def tooLongMsg (n : Nat) : String :=
  "Repository name cannot exceed 100 characters. Got " ++ toString n ++ " characters."

def badCharsMsg : String :=
  "Repository name can only contain alphanumeric characters, \x27-\x27, \x27_\x27, and \x27.\x27"

def badBoundaryMsg : String :=
  "Repository name cannot start with \x27-\x27 or end with \x27.\x27"

def tokenRequiredMsg : String :=
  "GitHub token is required. Set GITHUB_TOKEN environment variable or pass token parameter."

def invalidTokenMsg : String :=
  "Invalid GitHub token. Please check your credentials."

def descNotStringMsg : String := "Description must be a string."

/-- `RepoClient._validate_repo_name`, check for check in source order:
empty, length, character set (via `re.match`), boundary characters.
`head?`/`getLast?` model the Python subscripts `repo_name[0]` and
`repo_name[-1]`, which are only evaluated after the emptiness check. -/
def validateRepoName (repoName : List Char) : Except PyError Unit :=
  if repoName.isEmpty then
    .error (.validationError emptyNameMsg)
  else if MAX_REPO_NAME_LENGTH < repoName.length then
    .error (.validationError (tooLongMsg repoName.length))
  else if !reMatchRepoName repoName then
    .error (.validationError badCharsMsg)
  else if repoName.head? == some '-' || repoName.getLast? == some '.' then
    .error (.validationError badBoundaryMsg)
  else
    .ok ()

/-- The body of an HTTP response: a JSON object with string fields (all
the client reads are string-valued fields), valid JSON that is not an
object (array, string, number, boolean or null — `json()` succeeds but
neither a `['login']` subscript nor `.get` works on the result), or a
body that is not valid JSON at all. -/
inductive RespBody where
  | jsonObj (fields : List (String × String))
  | jsonNonObj
  | notJson
deriving Repr, DecidableEq

/-- Outcome of one `requests` call: either the server answered with some
status and body, or no response was obtained at all (connection error,
timeout), in which case the raised `RequestException` has `response`
set to `None`. -/
inductive HttpResult where
  | response (status : Nat) (body : RespBody)
  | connFailure (msg : String)
deriving Repr, DecidableEq

/-- `Response.raise_for_status()` raises exactly for 4xx/5xx statuses. -/
def isErrorStatus (status : Nat) : Bool :=
  400 ≤ status && status < 600

/-- Stand-in for `str(e)` of an `HTTPError` raised by
`raise_for_status` at the given status; no claim depends on its text. -/
def httpErrorStr (status : Nat) : String :=
  "HTTP error " ++ toString status

/-- Stand-in for `str(e)` of the exception `Response.json()` raises on a
non-JSON body; no claim depends on its text. -/
def jsonDecodeStr : String := "JSON decode error"

/-- Python `a or b` on two optional strings (`None` and `""` are falsy). -/
def pyOr (a b : Option String) : Option String :=
  match a with
  | some s => if s == "" then b else some s
  | none => b

/-- Python `a or b` where the fallback `b` is a plain string. -/
def pyOrS (a : Option String) (b : String) : String :=
  match a with
  | some s => if s == "" then b else s
  | none => b

/-- The session state a successfully constructed client holds. -/
structure RepoClient where
  token : String
  base_url : String
  username : String
deriving Repr, DecidableEq

/-- The authentication probe of `RepoClient.__init__`: `GET {base}/user`,
`raise_for_status`, then `json()['login']`.  A 401 is mapped to the
invalid-credentials error; other `RequestException`s are wrapped with
their status when a response exists; a success response that is not JSON
raises inside the `try` and is caught (no status attached); a success
body of valid non-object JSON makes the `['login']` subscript raise a
bare `TypeError`, and a success JSON object without a `login` key raises
a bare `KeyError` — neither is a `RequestException`, so no handler
catches them. -/
def authProbe (t burl : String) (userResp : HttpResult) : Except PyError RepoClient :=
  match userResp with
  | .connFailure msg =>
      .error (.gitHubAPIError ("Failed to authenticate with GitHub: " ++ msg) none)
  | .response status body =>
      if isErrorStatus status then
        if status == 401 then
          .error (.gitHubAPIError invalidTokenMsg (some 401))
        else
          .error (.gitHubAPIError
            ("Failed to authenticate with GitHub: " ++ httpErrorStr status) (some status))
      else
        match body with
        | .notJson =>
            .error (.gitHubAPIError
              ("Failed to authenticate with GitHub: " ++ jsonDecodeStr) none)
        | .jsonNonObj => .error .typeError
        | .jsonObj fields =>
            match fields.lookup "login" with
            | some login => .ok { token := t, base_url := burl, username := login }
            | none => .error (.keyError "login")

/-- `RepoClient.__init__(token, base_url)`.  `GITHUB_TOKEN` and
`BASE_URL` are the process-wide configuration values the module imports;
`userResp` is the outcome of the probe request, consulted only after the
local token check passes. -/
def initRepoClient (token GITHUB_TOKEN : Option String) (base_url : Option String)
    (BASE_URL : String) (userResp : HttpResult) : Except PyError RepoClient :=
  match pyOr token GITHUB_TOKEN with
  | none => .error (.validationError tokenRequiredMsg)
  | some t =>
      if t == "" then
        .error (.validationError tokenRequiredMsg)
      else
        authProbe t (pyOrS base_url BASE_URL) userResp

/-- A Python value as far as the client inspects one: the `description`
arguments are only tested with `isinstance(..., str)`. -/
inductive PyVal where
  | str (s : String)
  | boolV (b : Bool)
  | noneV
  | intV (n : Int)
deriving Repr, DecidableEq

def PyVal.isStr : PyVal → Bool
  | .str _ => true
  | _ => false

/-- The request an operation sends: target URL and JSON payload. -/
structure HttpRequest where
  url : String
  payload : List (String × PyVal)
deriving Repr, DecidableEq

/-- The pre-network part of `create_repo`: name validation, the
description type check, then the URL and payload exactly as built in the
source (`auto_init` hard-coded to `False`). -/
def createRepoRequest (client : RepoClient) (repoName : List Char)
    (description : PyVal) (priv : Bool) : Except PyError HttpRequest :=
  match validateRepoName repoName with
  | .error e => .error e
  | .ok _ =>
      if !description.isStr then
        .error (.validationError descNotStringMsg)
      else
        .ok { url := client.base_url ++ "/user/repos",
              payload := [("name", .str (String.mk repoName)),
                          ("description", description),
                          ("private", .boolV priv),
                          ("auto_init", .boolV false)] }

/-- `create_repo`: build the request, send it, map the outcome.  On a
422 the handler reads `e.response.json().get('message', ...)`; when that
body is not JSON, `json()` raises inside the `except` block and the
decoding error escapes unwrapped; when it is valid non-object JSON,
`.get` raises an `AttributeError`, which likewise escapes. -/
def createRepo (client : RepoClient) (repoName : List Char) (description : PyVal)
    (priv : Bool) (resp : HttpResult) : Except PyError (Nat × RespBody) :=
  match createRepoRequest client repoName description priv with
  | .error e => .error e
  | .ok _ =>
      match resp with
      | .connFailure msg =>
          .error (.gitHubAPIError ("Failed to create repository: " ++ msg) none)
      | .response status body =>
          if isErrorStatus status then
            if status == 422 then
              match body with
              | .notJson => .error .jsonDecodeError
              | .jsonNonObj => .error .attributeError
              | .jsonObj fields =>
                  .error (.gitHubAPIError
                    ("Failed to create repository: " ++
                      ((fields.lookup "message").getD "Validation failed"))
                    (some 422))
            else
              .error (.gitHubAPIError
                ("Failed to create repository: " ++ httpErrorStr status) (some status))
          else
            .ok (status, body)

/-- `get_repo`: validate, `GET /repos/{owner}/{name}`, wrap any request
failure with the operation and name. -/
def getRepo (client : RepoClient) (repoName : List Char)
    (resp : HttpResult) : Except PyError (Nat × RespBody) :=
  match validateRepoName repoName with
  | .error e => .error e
  | .ok _ =>
      match resp with
      | .connFailure msg =>
          .error (.gitHubAPIError
            ("Failed to get repository \x27" ++ String.mk repoName ++ "\x27: " ++ msg) none)
      | .response status body =>
          if isErrorStatus status then
            .error (.gitHubAPIError
              ("Failed to get repository \x27" ++ String.mk repoName ++ "\x27: " ++
                httpErrorStr status) (some status))
          else
            .ok (status, body)

/-- The pre-network part of `update_repo`: name validation, the
description type check, then the PATCH URL and its one-field payload. -/
def updateRepoRequest (client : RepoClient) (repoName : List Char)
    (newDescription : PyVal) : Except PyError HttpRequest :=
  match validateRepoName repoName with
  | .error e => .error e
  | .ok _ =>
      if !newDescription.isStr then
        .error (.validationError descNotStringMsg)
      else
        .ok { url := client.base_url ++ "/repos/" ++ client.username ++ "/" ++
                String.mk repoName,
              payload := [("description", newDescription)] }

/-- `update_repo`: build the request, send it, wrap any failure. -/
def updateRepo (client : RepoClient) (repoName : List Char) (newDescription : PyVal)
    (resp : HttpResult) : Except PyError (Nat × RespBody) :=
  match updateRepoRequest client repoName newDescription with
  | .error e => .error e
  | .ok _ =>
      match resp with
      | .connFailure msg =>
          .error (.gitHubAPIError
            ("Failed to update repository \x27" ++ String.mk repoName ++ "\x27: " ++ msg) none)
      | .response status body =>
          if isErrorStatus status then
            .error (.gitHubAPIError
              ("Failed to update repository \x27" ++ String.mk repoName ++ "\x27: " ++
                httpErrorStr status) (some status))
          else
            .ok (status, body)

/-- `delete_repo`: validate, `DELETE /repos/{owner}/{name}`, wrap any
failure. -/
def deleteRepo (client : RepoClient) (repoName : List Char)
    (resp : HttpResult) : Except PyError (Nat × RespBody) :=
  match validateRepoName repoName with
  | .error e => .error e
  | .ok _ =>
      match resp with
      | .connFailure msg =>
          .error (.gitHubAPIError
            ("Failed to delete repository \x27" ++ String.mk repoName ++ "\x27: " ++ msg) none)
      | .response status body =>
          if isErrorStatus status then
            .error (.gitHubAPIError
              ("Failed to delete repository \x27" ++ String.mk repoName ++ "\x27: " ++
                httpErrorStr status) (some status))
          else
            .ok (status, body)

/-- The two error classes the module itself defines. -/
def isCoreError : PyError → Bool
  | .validationError _ => true
  | .gitHubAPIError _ _ => true
  | .keyError _ => false
  | .typeError => false
  | .attributeError => false
  | .jsonDecodeError => false

/-- A concrete client state for closed evaluations. -/
def cTest : RepoClient :=
  { token := "token123", base_url := "https://api.github.com", username := "octocat" }

lemma isEmpty_false_of_ne_nil (s : List Char) (h : s ≠ []) : s.isEmpty = false := by
  cases s with
  | nil => exact absurd rfl h
  | cons a t => rfl

/-- Claim C1: every string of length 1 to 100 whose characters all lie in
`[A-Za-z0-9_.-]`, whose first character is not `-` and whose last
character is not `.`, is accepted by `_validate_repo_name`: the function
returns normally, raising no error. -/
theorem validateRepoName_accepts_valid (s : List Char)
    (hne : s ≠ []) (hlen : s.length ≤ 100)
    (hall : s.all allowedChar = true)
    (hfirst : s.head? ≠ some '-') (hlast : s.getLast? ≠ some '.') :
    validateRepoName s = .ok () := by
  have hemp : s.isEmpty = false := isEmpty_false_of_ne_nil s hne
  have hmatch : reMatchRepoName s = true := by
    unfold reMatchRepoName coreMatch
    rw [hemp, hall]
    simp
  have hfirstb : (s.head? == some '-') = false := by
    simpa using hfirst
  have hlastb : (s.getLast? == some '.') = false := by
    simpa using hlast
  simp [validateRepoName, hemp, hmatch, hfirstb, hlastb, MAX_REPO_NAME_LENGTH,
    Nat.not_lt.mpr hlen]

/-- Witness for C1 at the concrete name `repo-1.x`. -/
theorem validateRepoName_accepts_valid_witness :
    validateRepoName ("repo-1.x").data = .ok () :=
  validateRepoName_accepts_valid _ (by decide) (by decide) (by decide)
    (by decide) (by decide)

/-- Claim C2 (failing input): the two-character string `a` + newline
contains a character outside `[A-Za-z0-9_.-]`, yet `_validate_repo_name`
accepts it — CPython's `$` matches just before a trailing newline, so
`re.match(REPO_NAME_PATTERN, "a\n")` succeeds and the boundary check also
passes. -/
theorem validateRepoName_accepts_trailing_newline :
    validateRepoName ['a', '\n'] = .ok () ∧ allowedChar '\n' = false :=
  ⟨rfl, rfl⟩

/-- Claim C3: the checks of `_validate_repo_name` fire in source order —
empty, then length, then character set, then boundary characters — so a
string violating several rules gets the error of the earliest violated
check, and the boundary check's subscripts `repo_name[0]` and
`repo_name[-1]` are only ever reached on a non-empty string (both
subscripts in bounds: `head?`/`getLast?` are `some`). -/
theorem validateRepoName_check_order (s : List Char) :
    (s = [] → validateRepoName s = .error (.validationError emptyNameMsg)) ∧
    (s ≠ [] → 100 < s.length →
      validateRepoName s = .error (.validationError (tooLongMsg s.length))) ∧
    (s ≠ [] → s.length ≤ 100 → reMatchRepoName s = false →
      validateRepoName s = .error (.validationError badCharsMsg)) ∧
    (s ≠ [] → s.length ≤ 100 → reMatchRepoName s = true →
      s.head?.isSome = true ∧ s.getLast?.isSome = true ∧
      validateRepoName s =
        if s.head? == some '-' || s.getLast? == some '.' then
          .error (.validationError badBoundaryMsg)
        else .ok ()) := by
  refine ⟨?_, ?_, ?_, ?_⟩
  · rintro rfl; rfl
  · intro hne hlen
    have hemp : s.isEmpty = false := isEmpty_false_of_ne_nil s hne
    simp [validateRepoName, hemp, MAX_REPO_NAME_LENGTH, hlen]
  · intro hne hlen hm
    have hemp : s.isEmpty = false := isEmpty_false_of_ne_nil s hne
    simp [validateRepoName, hemp, MAX_REPO_NAME_LENGTH, Nat.not_lt.mpr hlen, hm]
  · intro hne hlen hm
    have hemp : s.isEmpty = false := isEmpty_false_of_ne_nil s hne
    refine ⟨?_, ?_, ?_⟩
    · cases s with
      | nil => exact absurd rfl hne
      | cons a t => rfl
    · simp [List.getLast?_isSome, hne]
    · simp [validateRepoName, hemp, MAX_REPO_NAME_LENGTH, Nat.not_lt.mpr hlen, hm]

/-- Witness for C3 at the concrete name `/`: the character-set check is
the earliest violated one, and its error is the one raised. -/
theorem validateRepoName_check_order_witness :
    validateRepoName ['/'] = .error (.validationError badCharsMsg) :=
  (validateRepoName_check_order ['/']).2.2.1 (by decide) (by decide) (by rfl)

/-- Claim C4: with no usable explicit token (absent or empty) and no
usable configured token, construction fails with the token-required
`ValidationError`, and the result is the same for every remote outcome —
the failure is decided locally, before the authentication probe. -/
theorem initRepoClient_missing_token (token GITHUB_TOKEN base_url : Option String)
    (BASE_URL : String) (resp : HttpResult)
    (htok : token = none ∨ token = some "")
    (hcfg : GITHUB_TOKEN = none ∨ GITHUB_TOKEN = some "") :
    initRepoClient token GITHUB_TOKEN base_url BASE_URL resp
      = .error (.validationError tokenRequiredMsg) := by
  rcases htok with h | h <;> rcases hcfg with h2 | h2 <;>
    subst h <;> subst h2 <;> rfl

/-- Witness for C4: no token anywhere, arbitrary remote outcome. -/
theorem initRepoClient_missing_token_witness :
    initRepoClient none none none "https://api.github.com" (.response 500 .notJson)
      = .error (.validationError tokenRequiredMsg) :=
  initRepoClient_missing_token none none none "https://api.github.com"
    (.response 500 .notJson) (Or.inl rfl) (Or.inl rfl)

/-- Claim C5: when the identity endpoint answers the probe with HTTP
401, construction fails with a `GitHubAPIError` carrying status 401 and
the invalid-credentials message, whatever the response body. -/
theorem initRepoClient_unauthorized (token GITHUB_TOKEN base_url : Option String)
    (BASE_URL t : String) (body : RespBody)
    (ht : pyOr token GITHUB_TOKEN = some t) (hne : t ≠ "") :
    initRepoClient token GITHUB_TOKEN base_url BASE_URL (.response 401 body)
      = .error (.gitHubAPIError invalidTokenMsg (some 401)) := by
  have hb : (t == "") = false := by simpa using hne
  unfold initRepoClient
  rw [ht]
  simp [hb, authProbe, isErrorStatus]

/-- Witness for C5 at a concrete rejected token. -/
theorem initRepoClient_unauthorized_witness :
    initRepoClient (some "bad-token") none none "https://api.github.com"
        (.response 401 (.jsonObj []))
      = .error (.gitHubAPIError invalidTokenMsg (some 401)) :=
  initRepoClient_unauthorized (some "bad-token") none none "https://api.github.com"
    "bad-token" (.jsonObj []) (by rfl) (by decide)

lemma authProbe_ne_validationError (t burl : String) (r : HttpResult) (msg : String) :
    authProbe t burl r ≠ .error (.validationError msg) := by
  cases r with
  | connFailure m => simp [authProbe]
  | response status body =>
      cases body with
      | notJson =>
          by_cases h : isErrorStatus status = true
          · by_cases h4 : status = 401
            · subst h4; simp [authProbe, isErrorStatus]
            · simp [authProbe, h, h4]
          · simp [authProbe, h]
      | jsonNonObj =>
          by_cases h : isErrorStatus status = true
          · by_cases h4 : status = 401
            · subst h4; simp [authProbe, isErrorStatus]
            · simp [authProbe, h, h4]
          · simp [authProbe, h]
      | jsonObj fields =>
          by_cases h : isErrorStatus status = true
          · by_cases h4 : status = 401
            · subst h4; simp [authProbe, isErrorStatus]
            · simp [authProbe, h, h4]
          · cases hl : fields.lookup "login" with
            | some l => simp [authProbe, h, hl]
            | none => simp [authProbe, h, hl]

/-- Claim C10: an explicitly passed empty token and empty base URL are
falsy, so `token or GITHUB_TOKEN` and `base_url or BASE_URL` silently
fall back to the configured defaults: construction behaves exactly as if
no explicit argument had been passed, the token-required error is not
raised (given a non-empty configured token), and a successful probe
yields a client built from the defaults.  An explicit value takes effect
only when it is non-empty. -/
theorem initRepoClient_empty_args_use_defaults (tok BASE_URL login : String)
    (htok : tok ≠ "") (resp : HttpResult) :
    initRepoClient (some "") (some tok) (some "") BASE_URL resp
      = initRepoClient none (some tok) none BASE_URL resp ∧
    initRepoClient (some "") (some tok) (some "") BASE_URL resp
      ≠ .error (.validationError tokenRequiredMsg) ∧
    initRepoClient (some "") (some tok) (some "") BASE_URL
        (.response 200 (.jsonObj [("login", login)]))
      = .ok { token := tok, base_url := BASE_URL, username := login } ∧
    (∀ s : String, s ≠ "" →
      pyOr (some s) (some tok) = some s ∧ pyOrS (some s) BASE_URL = s) := by
  have hb : (tok == "") = false := by simpa using htok
  have key : ∀ r : HttpResult,
      initRepoClient (some "") (some tok) (some "") BASE_URL r
        = authProbe tok BASE_URL r := by
    intro r
    simp [initRepoClient, pyOr, pyOrS, hb]
  refine ⟨?_, ?_, ?_, ?_⟩
  · rw [key resp]
    simp [initRepoClient, pyOr, pyOrS, hb]
  · rw [key resp]
    exact authProbe_ne_validationError tok BASE_URL resp tokenRequiredMsg
  · rw [key]
    simp [authProbe, isErrorStatus, List.lookup]
  · intro s hs
    have hsb : (s == "") = false := by simpa using hs
    simp [pyOr, pyOrS, hsb]

/-- Witness for C10: empty explicit token and base URL, non-empty
configured token, successful probe. -/
theorem initRepoClient_empty_args_use_defaults_witness :
    initRepoClient (some "") (some "token123") (some "") "https://api.github.com"
        (.response 200 (.jsonObj [("login", "octocat")]))
      = .ok { token := "token123", base_url := "https://api.github.com",
              username := "octocat" } :=
  (initRepoClient_empty_args_use_defaults "token123" "https://api.github.com"
    "octocat" (by decide) (.connFailure "down")).2.2.1

lemma validateRepoName_error_kind (s : List Char) (e : PyError)
    (h : validateRepoName s = .error e) : ∃ msg, e = .validationError msg := by
  unfold validateRepoName at h
  repeat' split at h
  all_goals first
    | exact ⟨_, (Except.error.inj h).symm⟩
    | simp at h

/-- Claim C6 counterexample: a 422 answer whose body is not valid JSON.
The handler evaluates `e.response.json()` to extract the service
message, the decoding error is raised inside the `except` block, and it
escapes — `create_repo` does not raise a `GitHubAPIError` here. -/
theorem createRepo_422_nonjson_escape :
    createRepo cTest ['r'] (.str "") false (.response 422 .notJson)
      = .error .jsonDecodeError := by rfl

/-- Claim C6 as amended: whenever `create_repo`'s request fails with
HTTP 422 and the response body is a JSON object, it raises
`GitHubAPIError` with status 422 whose message incorporates the
payload's `message` field, falling back to `Validation failed` when that
field is absent; when the 422 body is not valid JSON, the JSON-decoding
error escapes instead of a `GitHubAPIError`. -/
theorem createRepo_422_behavior (client : RepoClient) (name : List Char)
    (description : PyVal) (priv : Bool) (fields : List (String × String))
    (hval : validateRepoName name = .ok ()) (hdesc : description.isStr = true) :
    createRepo client name description priv (.response 422 (.jsonObj fields))
      = .error (.gitHubAPIError ("Failed to create repository: " ++
          ((fields.lookup "message").getD "Validation failed")) (some 422)) ∧
    createRepo client name description priv (.response 422 .notJson)
      = .error .jsonDecodeError := by
  constructor <;> simp [createRepo, createRepoRequest, hval, hdesc, isErrorStatus]

/-- Witness for C6 at a concrete 422 payload carrying a `message`. -/
theorem createRepo_422_behavior_witness :
    createRepo cTest ['r'] (.str "desc") false
        (.response 422 (.jsonObj [("message", "name already exists")]))
      = .error (.gitHubAPIError ("Failed to create repository: " ++
          (([("message", "name already exists")].lookup "message").getD
            "Validation failed")) (some 422)) :=
  (createRepo_422_behavior cTest ['r'] (.str "desc") false
    [("message", "name already exists")] (by rfl) (by rfl)).1

/-- Claim C7: for each of the four operations, a failed name validation
makes the operation fail with that `ValidationError` for every remote
outcome — so no HTTP request is consulted — and likewise the description
type check in `create_repo` and `update_repo`. -/
theorem operations_validate_before_network (client : RepoClient) (name : List Char)
    (description : PyVal) (priv : Bool) (resp : HttpResult) :
    (∀ e : PyError, validateRepoName name = .error e →
      (∃ msg, e = .validationError msg) ∧
      createRepo client name description priv resp = .error e ∧
      getRepo client name resp = .error e ∧
      updateRepo client name description resp = .error e ∧
      deleteRepo client name resp = .error e) ∧
    (validateRepoName name = .ok () → description.isStr = false →
      createRepo client name description priv resp
        = .error (.validationError descNotStringMsg) ∧
      updateRepo client name description resp
        = .error (.validationError descNotStringMsg)) := by
  constructor
  · intro e he
    refine ⟨validateRepoName_error_kind name e he, ?_, ?_, ?_, ?_⟩
    · simp [createRepo, createRepoRequest, he]
    · simp [getRepo, he]
    · simp [updateRepo, updateRepoRequest, he]
    · simp [deleteRepo, he]
  · intro hok hdesc
    constructor
    · simp [createRepo, createRepoRequest, hok, hdesc]
    · simp [updateRepo, updateRepoRequest, hok, hdesc]

/-- Witness for C7: a malformed name makes `create_repo` fail with the
character-set `ValidationError` even on a would-be 201 outcome. -/
theorem operations_validate_before_network_witness :
    createRepo cTest ['/'] (.str "") false (.response 201 (.jsonObj []))
      = .error (.validationError badCharsMsg) :=
  ((operations_validate_before_network cTest ['/'] (.str "") false
      (.response 201 (.jsonObj []))).1 (.validationError badCharsMsg) (by rfl)).2.1

/-- Claim C8: once validation passes, the creation request `create_repo`
builds targets `{base}/user/repos` and its body is exactly
`{name, description, private, auto_init: false}` — `auto_init` is always
`false`. -/
theorem createRepoRequest_payload (client : RepoClient) (name : List Char)
    (description : PyVal) (priv : Bool)
    (hval : validateRepoName name = .ok ()) (hdesc : description.isStr = true) :
    createRepoRequest client name description priv = .ok
      { url := client.base_url ++ "/user/repos",
        payload := [("name", .str (String.mk name)),
                    ("description", description),
                    ("private", .boolV priv),
                    ("auto_init", .boolV false)] } := by
  simp [createRepoRequest, hval, hdesc]

/-- Witness for C8 at a concrete valid call. -/
theorem createRepoRequest_payload_witness :
    createRepoRequest cTest ("my-repo").data (.str "d") true = .ok
      { url := cTest.base_url ++ "/user/repos",
        payload := [("name", .str (String.mk ("my-repo").data)),
                    ("description", .str "d"),
                    ("private", .boolV true),
                    ("auto_init", .boolV false)] } :=
  createRepoRequest_payload cTest ("my-repo").data (.str "d") true (by rfl) (by rfl)

lemma createRepoRequest_error_kind (client : RepoClient) (name : List Char)
    (description : PyVal) (priv : Bool) (e : PyError)
    (h : createRepoRequest client name description priv = .error e) :
    ∃ msg, e = .validationError msg := by
  unfold createRepoRequest at h
  cases hv : validateRepoName name with
  | error e2 =>
      rw [hv] at h
      obtain rfl := Except.error.inj h
      exact validateRepoName_error_kind name e2 hv
  | ok u =>
      cases u
      rw [hv] at h
      by_cases hd : description.isStr = true
      · simp [hd] at h
      · simp [Bool.eq_false_iff.mpr hd] at h
        exact ⟨descNotStringMsg, h.symm⟩

lemma updateRepoRequest_error_kind (client : RepoClient) (name : List Char)
    (newDescription : PyVal) (e : PyError)
    (h : updateRepoRequest client name newDescription = .error e) :
    ∃ msg, e = .validationError msg := by
  unfold updateRepoRequest at h
  cases hv : validateRepoName name with
  | error e2 =>
      rw [hv] at h
      obtain rfl := Except.error.inj h
      exact validateRepoName_error_kind name e2 hv
  | ok u =>
      cases u
      rw [hv] at h
      by_cases hd : newDescription.isStr = true
      · simp [hd] at h
      · simp [Bool.eq_false_iff.mpr hd] at h
        exact ⟨descNotStringMsg, h.symm⟩

lemma authProbe_error_classified (t burl : String) (uresp : HttpResult) (e : PyError)
    (h : authProbe t burl uresp = .error e) :
    isCoreError e = true ∨
      (e = .keyError "login" ∧ ∃ st fields, uresp = .response st (.jsonObj fields) ∧
        isErrorStatus st = false ∧ fields.lookup "login" = none) ∨
      (e = .typeError ∧ ∃ st, uresp = .response st .jsonNonObj ∧
        isErrorStatus st = false) := by
  cases uresp with
  | connFailure m =>
      obtain rfl := Except.error.inj h
      left; rfl
  | response status body =>
      cases body with
      | notJson =>
          simp only [authProbe] at h
          by_cases hs : isErrorStatus status = true
          · rw [if_pos hs] at h
            by_cases h4 : (status == 401) = true
            · rw [if_pos h4] at h
              obtain rfl := Except.error.inj h
              left; rfl
            · rw [if_neg h4] at h
              obtain rfl := Except.error.inj h
              left; rfl
          · rw [if_neg hs] at h
            obtain rfl := Except.error.inj h
            left; rfl
      | jsonNonObj =>
          simp only [authProbe] at h
          by_cases hs : isErrorStatus status = true
          · rw [if_pos hs] at h
            by_cases h4 : (status == 401) = true
            · rw [if_pos h4] at h
              obtain rfl := Except.error.inj h
              left; rfl
            · rw [if_neg h4] at h
              obtain rfl := Except.error.inj h
              left; rfl
          · rw [if_neg hs] at h
            obtain rfl := Except.error.inj h
            right; right
            exact ⟨rfl, status, rfl, by simpa using hs⟩
      | jsonObj fields =>
          simp only [authProbe] at h
          by_cases hs : isErrorStatus status = true
          · rw [if_pos hs] at h
            by_cases h4 : (status == 401) = true
            · rw [if_pos h4] at h
              obtain rfl := Except.error.inj h
              left; rfl
            · rw [if_neg h4] at h
              obtain rfl := Except.error.inj h
              left; rfl
          · rw [if_neg hs] at h
            cases hl : fields.lookup "login" with
            | some l => rw [hl] at h; simp at h
            | none =>
                rw [hl] at h
                obtain rfl := Except.error.inj h
                right; left
                exact ⟨rfl, status, fields, rfl, by simpa using hs, hl⟩

lemma initRepoClient_error_classified (token GITHUB_TOKEN base_url : Option String)
    (BASE_URL : String) (uresp : HttpResult) (e : PyError)
    (h : initRepoClient token GITHUB_TOKEN base_url BASE_URL uresp = .error e) :
    isCoreError e = true ∨
      (e = .keyError "login" ∧ ∃ st fields, uresp = .response st (.jsonObj fields) ∧
        isErrorStatus st = false ∧ fields.lookup "login" = none) ∨
      (e = .typeError ∧ ∃ st, uresp = .response st .jsonNonObj ∧
        isErrorStatus st = false) := by
  unfold initRepoClient at h
  split at h
  · obtain rfl := Except.error.inj h
    left; rfl
  · split at h
    · obtain rfl := Except.error.inj h
      left; rfl
    · exact authProbe_error_classified _ _ uresp e h

lemma createRepo_error_classified (client : RepoClient) (name : List Char)
    (description : PyVal) (priv : Bool) (resp : HttpResult) (e : PyError)
    (h : createRepo client name description priv resp = .error e) :
    isCoreError e = true ∨ (e = .jsonDecodeError ∧ resp = .response 422 .notJson) ∨
      (e = .attributeError ∧ resp = .response 422 .jsonNonObj) := by
  unfold createRepo at h
  split at h
  · rename_i e2 heq
    obtain rfl := Except.error.inj h
    obtain ⟨msg, rfl⟩ := createRepoRequest_error_kind client name description priv e2 heq
    left; rfl
  · split at h
    · obtain rfl := Except.error.inj h
      left; rfl
    · rename_i status body
      split at h
      · split at h
        · rename_i h422
          cases body with
          | notJson =>
              obtain rfl := Except.error.inj h
              right; left
              obtain rfl : status = 422 := by simpa using h422
              exact ⟨rfl, rfl⟩
          | jsonNonObj =>
              obtain rfl := Except.error.inj h
              right; right
              obtain rfl : status = 422 := by simpa using h422
              exact ⟨rfl, rfl⟩
          | jsonObj fields =>
              obtain rfl := Except.error.inj h
              left; rfl
        · obtain rfl := Except.error.inj h
          left; rfl
      · simp at h

lemma getRepo_error_core (client : RepoClient) (name : List Char) (resp : HttpResult)
    (e : PyError) (h : getRepo client name resp = .error e) : isCoreError e = true := by
  unfold getRepo at h
  split at h
  · rename_i e2 heq
    obtain rfl := Except.error.inj h
    obtain ⟨msg, rfl⟩ := validateRepoName_error_kind name e2 heq
    rfl
  · split at h
    · obtain rfl := Except.error.inj h; rfl
    · split at h
      · obtain rfl := Except.error.inj h; rfl
      · simp at h

lemma updateRepo_error_core (client : RepoClient) (name : List Char)
    (newDescription : PyVal) (resp : HttpResult) (e : PyError)
    (h : updateRepo client name newDescription resp = .error e) :
    isCoreError e = true := by
  unfold updateRepo at h
  split at h
  · rename_i e2 heq
    obtain rfl := Except.error.inj h
    obtain ⟨msg, rfl⟩ := updateRepoRequest_error_kind client name newDescription e2 heq
    rfl
  · split at h
    · obtain rfl := Except.error.inj h; rfl
    · split at h
      · obtain rfl := Except.error.inj h; rfl
      · simp at h

lemma deleteRepo_error_core (client : RepoClient) (name : List Char) (resp : HttpResult)
    (e : PyError) (h : deleteRepo client name resp = .error e) : isCoreError e = true := by
  unfold deleteRepo at h
  split at h
  · rename_i e2 heq
    obtain rfl := Except.error.inj h
    obtain ⟨msg, rfl⟩ := validateRepoName_error_kind name e2 heq
    rfl
  · split at h
    · obtain rfl := Except.error.inj h; rfl
    · split at h
      · obtain rfl := Except.error.inj h; rfl
      · simp at h

/-- Claim C9 counterexample: the identity endpoint answers the probe
with 200 and a JSON object that has no `login` field; the subscript
`user_response.json()['login']` raises a bare `KeyError`, which is
neither a `ValidationError` nor a `GitHubAPIError` and no handler
catches. -/
theorem initRepoClient_keyerror_escape :
    initRepoClient (some "token123") none none "https://api.github.com"
        (.response 200 (.jsonObj [("id", "1")]))
      = .error (.keyError "login") := by rfl

/-- Claim C9 as amended: every failure of construction or of the four
operations surfaces as a `ValidationError` or a `GitHubAPIError`, except
when a success path or the 422 handler inspects a response body of the
wrong shape — construction when the identity probe succeeds at the HTTP
level but the JSON object lacks the `login` field (a bare `KeyError`
escapes) or the body is valid non-object JSON (the `['login']` subscript
raises a `TypeError`, which escapes), and `create_repo` on a 422 whose
body is not valid JSON (the JSON-decoding error escapes) or is valid
non-object JSON (`.get` raises an `AttributeError`, which escapes);
`get_repo`, `update_repo` and `delete_repo` never let any other kind
escape. -/
theorem repoClient_error_taxonomy (token GITHUB_TOKEN base_url : Option String)
    (BASE_URL : String) (uresp : HttpResult) (client : RepoClient) (name : List Char)
    (description : PyVal) (priv : Bool) (resp : HttpResult) :
    (∀ e, initRepoClient token GITHUB_TOKEN base_url BASE_URL uresp = .error e →
      isCoreError e = true ∨
        (e = .keyError "login" ∧ ∃ st fields, uresp = .response st (.jsonObj fields) ∧
          isErrorStatus st = false ∧ fields.lookup "login" = none) ∨
        (e = .typeError ∧ ∃ st, uresp = .response st .jsonNonObj ∧
          isErrorStatus st = false)) ∧
    (∀ e, createRepo client name description priv resp = .error e →
      isCoreError e = true ∨ (e = .jsonDecodeError ∧ resp = .response 422 .notJson) ∨
        (e = .attributeError ∧ resp = .response 422 .jsonNonObj)) ∧
    (∀ e, getRepo client name resp = .error e → isCoreError e = true) ∧
    (∀ e, updateRepo client name description resp = .error e → isCoreError e = true) ∧
    (∀ e, deleteRepo client name resp = .error e → isCoreError e = true) :=
  ⟨fun e h => initRepoClient_error_classified token GITHUB_TOKEN base_url BASE_URL uresp e h,
   fun e h => createRepo_error_classified client name description priv resp e h,
   fun e h => getRepo_error_core client name resp e h,
   fun e h => updateRepo_error_core client name description resp e h,
   fun e h => deleteRepo_error_core client name resp e h⟩

/-- Witness for C9 (amended): a concrete `get_repo` failure is of a core
kind. -/
theorem repoClient_error_taxonomy_witness :
    isCoreError (.validationError emptyNameMsg) = true :=
  (repoClient_error_taxonomy none none none "https://api.github.com"
      (.connFailure "down") cTest [] (.str "") false (.connFailure "down")).2.2.1
    (.validationError emptyNameMsg) (by rfl)

end RepoClientSpec
